import Mathlib

/-!
Shallow embedding of `src/server/src/services/openRouterService.js`:
the exponential-backoff retry executor, the OpenRouter completion client
(request construction, HTTP status handling, JSON extraction from the
response content), and the four prompt-building generation functions.

Conventions of the embedding:
* a JavaScript async operation (`apiCall`) is modelled as a function from
  the 1-based invocation ordinal to its outcome, `Int → Except JsError α`:
  invocation `k` either resolves with a value or rejects with an error;
* a thrown JavaScript value that may be `undefined` is an `Option JsError`
  (`none` = `undefined`, as for the uninitialised `lastError`);
* timers (`setTimeout`) perform no real waiting; the delays requested are
  recorded, in order, in the `delays` field of the returned trace;
* JavaScript numbers appearing as loop counters are modelled as `Int`
  (the source only ever uses small integers there).
-/

namespace OpenRouterService

/-- Error object thrown inside the service: `status` models the optional
numeric `error.status` field (`none` when the field is absent), `message`
the `Error` message string. -/
structure JsError where
  status : Option Int
  message : String
  deriving Repr, DecidableEq

/-- Line 18 of the source:
`error.status === 503 || error.status === 429 || error.status === 500`. -/
def isRetryable (e : JsError) : Bool :=
  e.status == some 503 || e.status == some 429 || e.status == some 500

/-- Observable trace of one run of `retryWithExponentialBackoff`:
how many times the wrapped operation was invoked, which delays (ms) were
requested between attempts, and the final outcome (`Except.error none`
models `throw lastError` with `lastError` still `undefined`). -/
structure RetryTrace (α : Type) where
  calls : Nat
  delays : List Nat
  outcome : Except (Option JsError) α
  deriving Repr

/-- Body of the `for (let attempt = 1; attempt <= maxRetries; attempt++)`
loop of `retryWithExponentialBackoff` (source lines 12-23), written as
structural recursion on `fuel`, the number of loop iterations that remain
allowed (so the loop guard `attempt <= maxRetries` fails exactly when
`fuel = 0`, and the `if (attempt === maxRetries) break` line corresponds
to `fuel = 0` after consuming the current iteration). `attempt` is the
1-based ordinal of the current iteration and `lastError` the current value
of the `lastError` variable. -/
def retryLoop {α : Type} (apiCall : Int → Except JsError α) (attempt : Int) :
    Nat → Option JsError → RetryTrace α
  | 0, lastError => { calls := 0, delays := [], outcome := .error lastError }
  | fuel + 1, _ =>
    match apiCall attempt with
    | .ok v => { calls := 1, delays := [], outcome := .ok v }
    | .error e =>
      if isRetryable e then
        if fuel = 0 then
          { calls := 1, delays := [], outcome := .error (some e) }
        else
          let rest := retryLoop apiCall (attempt + 1) fuel (some e)
          { calls := rest.calls + 1,
            delays := 2 ^ (attempt - 1).toNat * 1000 :: rest.delays,
            outcome := rest.outcome }
      else { calls := 1, delays := [], outcome := .error (some e) }

/-- Source lines 10-26: run `apiCall` up to `maxRetries` times, starting at
attempt 1 with `lastError` uninitialised (`none`). A negative `maxRetries`
allows zero iterations, exactly as the JavaScript loop guard does. -/
def retryWithExponentialBackoff {α : Type} (apiCall : Int → Except JsError α)
    (maxRetries : Int) : RetryTrace α :=
  retryLoop apiCall 1 maxRetries.toNat none

/-- JSON value, the result type of the `JSON.parse` model. -/
inductive Json where
  | jnull
  | jbool (b : Bool)
  | jnum (n : Int)
  | jstr (s : String)
  | jarr (elems : List Json)
  | jobj (fields : List (String × Json))

/-- Decides whether `pat` is a prefix of `cs`. -/
def strStartsWith : List Char → List Char → Bool
  | [], _ => true
  | _ :: _, [] => false
  | p :: ps, c :: cs => p == c && strStartsWith ps cs

/-- JSON whitespace characters. -/
def isJsonWs (c : Char) : Bool :=
  c == ' ' || c == '\t' || c == '\n' || c == '\r'

/-- Drop leading JSON whitespace. -/
def skipWs : List Char → List Char
  | [] => []
  | c :: cs => if isJsonWs c then skipWs cs else c :: cs

/-- ASCII decimal digit test. -/
def isDigitCh (c : Char) : Bool :=
  '0' ≤ c && c ≤ '9'

/-- Split a leading run of decimal digits from the rest. -/
def takeDigits : List Char → List Char × List Char
  | [] => ([], [])
  | c :: cs =>
    if isDigitCh c then
      let p := takeDigits cs
      (c :: p.1, p.2)
    else ([], c :: cs)

/-- Numeric value of a digit run. -/
def digitsToNat (ds : List Char) : Nat :=
  ds.foldl (fun acc c => acc * 10 + (c.toNat - '0'.toNat)) 0

/-- Body of a JSON string literal after the opening quote: returns the
decoded string and the input remaining after the closing quote. Supports
the simple escapes; `\u` escapes are outside this model of `JSON.parse`. -/
def parseStringBody : List Char → Option (String × List Char)
  | [] => none
  | '"' :: rest => some ("", rest)
  | '\\' :: rest =>
    match rest with
    | [] => none
    | e :: rest2 =>
      let esc : Option Char :=
        if e = '"' then some '"'
        else if e = '\\' then some '\\'
        else if e = '/' then some '/'
        else if e = 'n' then some '\n'
        else if e = 't' then some '\t'
        else if e = 'r' then some '\r'
        else if e = 'b' then some (Char.ofNat 8)
        else if e = 'f' then some (Char.ofNat 12)
        else none
      match esc with
      | some c => (parseStringBody rest2).map (fun p => (String.mk (c :: p.1.data), p.2))
      | none => none
  | c :: rest => (parseStringBody rest).map (fun p => (String.mk (c :: p.1.data), p.2))

mutual

/-- One JSON value (fuel-bounded recursive-descent model of `JSON.parse`,
restricted to integer numerals and `\u`-free strings; ample fuel is
supplied by `jsonParse`). Returns the value and the remaining input. -/
def parseValue : Nat → List Char → Option (Json × List Char)
  | 0, _ => none
  | fuel + 1, cs =>
    match skipWs cs with
    | [] => none
    | c :: rest =>
      if c = '{' then
        match skipWs rest with
        | '}' :: r2 => some (.jobj [], r2)
        | r2 => (parseMembers fuel r2).map (fun p => (.jobj p.1, p.2))
      else if c = '[' then
        match skipWs rest with
        | ']' :: r2 => some (.jarr [], r2)
        | r2 => (parseElements fuel r2).map (fun p => (.jarr p.1, p.2))
      else if c = '"' then
        (parseStringBody rest).map (fun p => (.jstr p.1, p.2))
      else if c = 't' then
        if strStartsWith "rue".data rest then some (.jbool true, rest.drop 3) else none
      else if c = 'f' then
        if strStartsWith "alse".data rest then some (.jbool false, rest.drop 4) else none
      else if c = 'n' then
        if strStartsWith "ull".data rest then some (.jnull, rest.drop 3) else none
      else if c = '-' then
        match takeDigits rest with
        | ([], _) => none
        | (ds, r) => some (.jnum (-(digitsToNat ds : Int)), r)
      else if isDigitCh c then
        let p := takeDigits (c :: rest)
        some (.jnum (digitsToNat p.1), p.2)
      else none

/-- Nonempty member list of a JSON object, consuming the closing brace. -/
def parseMembers : Nat → List Char → Option (List (String × Json) × List Char)
  | 0, _ => none
  | fuel + 1, cs =>
    match skipWs cs with
    | '"' :: rest =>
      match parseStringBody rest with
      | none => none
      | some (key, r1) =>
        match skipWs r1 with
        | ':' :: r2 =>
          match parseValue fuel r2 with
          | none => none
          | some (v, r3) =>
            match skipWs r3 with
            | ',' :: r4 => (parseMembers fuel r4).map (fun p => ((key, v) :: p.1, p.2))
            | '}' :: r4 => some ([(key, v)], r4)
            | _ => none
        | _ => none
    | _ => none

/-- Nonempty element list of a JSON array, consuming the closing bracket. -/
def parseElements : Nat → List Char → Option (List Json × List Char)
  | 0, _ => none
  | fuel + 1, cs =>
    match parseValue fuel cs with
    | none => none
    | some (v, r1) =>
      match skipWs r1 with
      | ',' :: r2 => (parseElements fuel r2).map (fun p => (v :: p.1, p.2))
      | ']' :: r2 => some ([v], r2)
      | _ => none

end

/-- Model of `JSON.parse(s)` (restricted to integer numerals and `\u`-free
strings): `some` of the parsed value when `s` is a complete JSON text,
`none` when `JSON.parse` would throw a `SyntaxError`. The fuel bound
exceeds the deepest possible chain of recursive calls on `s`. -/
def jsonParse (s : String) : Option Json :=
  match parseValue (s.data.length + 2) s.data with
  | some (j, rest) => if (skipWs rest).isEmpty then some j else none
  | none => none

/-- Opening delimiter demanded by the regex at line 93: three backticks,
the lowercase label `json`, then exactly one newline. -/
def fencedOpen : List Char := "```json\n".data

/-- Closing delimiter demanded by the regex at line 93: a newline followed
by three backticks. -/
def fencedClose : List Char := "\n```".data

/-- Capture group of the lazy `([\s\S]*?)` of the regex: the characters up
to the first occurrence of the closing delimiter, `none` if the closing
delimiter never occurs. -/
def captureTo : List Char → Option (List Char)
  | [] => none
  | c :: rest =>
    if strStartsWith fencedClose (c :: rest) then some []
    else (captureTo rest).map (fun t => c :: t)

/-- Model of `text.match(/```json\n([\s\S]*?)\n```/)` (line 93), returning
the first capture group: the regex matches at the leftmost position where
the opening delimiter is followed (anywhere later) by the closing
delimiter, and the lazy group captures up to the first closing delimiter
after the opening one. -/
def jsonBlockMatch : List Char → Option (List Char)
  | [] => none
  | c :: rest =>
    if strStartsWith fencedOpen (c :: rest) then
      match captureTo ((c :: rest).drop 8) with
      | some cap => some cap
      | none => jsonBlockMatch rest
    else jsonBlockMatch rest

/-- One message of the chat-completion request body (lines 74-77). -/
structure ChatMessage where
  role : String
  content : String
  deriving Repr, DecidableEq

/-- Body of the POST request sent to the chat-completions endpoint:
`{ model, messages: [{ role: 'user', content: prompt }] }`. -/
structure RequestBody where
  model : String
  messages : List ChatMessage
  deriving Repr, DecidableEq

/-- Line 76: the body holds the single user-role message with the prompt. -/
def mkRequestBody (model prompt : String) : RequestBody :=
  { model := model, messages := [{ role := "user", content := prompt }] }

/-- The `message` object of one choice; `content` is the optional string
read by `choices?.[0]?.message?.content`. -/
structure ApiMessage where
  content : Option String
  deriving Repr, DecidableEq

/-- One element of the provider's `choices` array. -/
structure ApiChoice where
  message : Option ApiMessage
  deriving Repr, DecidableEq

/-- Success envelope returned by `res.json()`: the optional `choices`
array. -/
structure ApiResponse where
  choices : Option (List ApiChoice)
  deriving Repr, DecidableEq

/-- Observable part of the `fetch` response: `ok`, `status`, and the
parsed body used when `ok` holds. -/
structure HttpResponse where
  ok : Bool
  status : Int
  body : ApiResponse
  deriving Repr, DecidableEq

/-- The async closure passed to `retryWithExponentialBackoff` at lines
65-84, for one invocation: the wire behaviour of the provider is a
function from the request body and the attempt ordinal to the HTTP
response observed on that attempt. It always sends
`mkRequestBody model prompt`; a non-`ok` response becomes a thrown error
carrying the response's status code (lines 79-83). -/
def fetchAttempt (model prompt : String) (wire : RequestBody → Int → HttpResponse)
    (attempt : Int) : Except JsError ApiResponse :=
  let res := wire (mkRequestBody model prompt) attempt
  if res.ok then .ok res.body
  else .error { status := some res.status,
                message := "OpenRouter API error: " ++ toString res.status }

/-- Line 88 and line 100: `response.choices?.[0]?.message?.content || ''`. -/
def extractContent (r : ApiResponse) : String :=
  let c : Option String :=
    match r.choices with
    | some (ch :: _) =>
      match ch.message with
      | some m => m.content
      | none => none
    | _ => none
  match c with
  | some s => s
  | none => ""

/-- Error thrown out of `callOpenRouterAPI`. -/
inductive CallError where
  | http (e : Option JsError)
  | syntaxError
  | failedToParse

/-- Value returned by `callOpenRouterAPI`: a parsed JSON object in JSON
mode, the raw content string otherwise. -/
inductive CallValue where
  | jsonVal (j : Json)
  | textVal (s : String)

/-- Lines 86-99: the JSON-mode extraction. Direct `JSON.parse` of the
content; on failure, the fenced-block match, whose inner text is parsed by
a second `JSON.parse` whose `SyntaxError` propagates uncaught
(`CallError.syntaxError`); when no block matches, the dedicated
`Error('Failed to parse JSON from OpenRouter response')` is thrown
(`CallError.failedToParse`). -/
def parseJsonContent (text : String) : Except CallError Json :=
  match jsonParse text with
  | some j => .ok j
  | none =>
    match jsonBlockMatch text.data with
    | some inner =>
      match jsonParse (String.mk inner) with
      | some j => .ok j
      | none => .error CallError.syntaxError
    | none => .error CallError.failedToParse

/-- Trace of one run of `callOpenRouterAPI`: the invocation count and
delays of the inner retry run, and the final result or thrown error. -/
structure CallTrace where
  calls : Nat
  delays : List Nat
  result : Except CallError CallValue

/-- Lines 64-101: the completion client. The HTTP exchange is wrapped in
`retryWithExponentialBackoff` with its default budget of 3; the response
surviving the retry wrapper is post-processed according to `expectJson`. -/
def callOpenRouterAPI (model prompt : String) (wire : RequestBody → Int → HttpResponse)
    (expectJson : Bool) : CallTrace :=
  let t := retryWithExponentialBackoff (fetchAttempt model prompt wire) 3
  match t.outcome with
  | .error e => { calls := t.calls, delays := t.delays, result := .error (.http e) }
  | .ok resp =>
    if expectJson then
      match parseJsonContent (extractContent resp) with
      | .ok j => { calls := t.calls, delays := t.delays, result := .ok (.jsonVal j) }
      | .error pe => { calls := t.calls, delays := t.delays, result := .error pe }
    else
      { calls := t.calls, delays := t.delays, result := .ok (.textVal (extractContent resp)) }

/-- JavaScript truthiness of the module-level `apiKey` string variable:
`!apiKey` holds when the environment variable is absent (`none`) or the
empty string. -/
def jsFalsy : Option String → Bool
  | none => true
  | some s => s == ""

/-- JavaScript `a || b` for the optional string `a` and default `b`. -/
def jsOrDefault : Option String → String → String
  | none, d => d
  | some s, d => if s == "" then d else s

/-- Outcome of one generation function up to its delegation: either it
threw the configuration error before doing anything else (`thrown`, so no
network request and no retry can have happened), or it reached
`callOpenRouterAPI` with the given prompt and `expectJson` flag
(`called`). -/
inductive GenResult where
  | thrown (msg : String)
  | called (prompt : String) (expectJson : Bool)
  deriving Repr, DecidableEq

/-- One entry of the `coursesContext` array of `generateChatResponse`:
a course with a title and an optional summary. -/
structure CourseCtx where
  title : String
  summary : Option String
  deriving Repr, DecidableEq

/-- Lines 37-41: `generateComprehensiveNote`. Guard on the API key, then
delegation to `callOpenRouterAPI(prompt)` (plain-text mode). -/
def generateComprehensiveNote (apiKey : Option String)
    (courseTitle sectionTitle summary courseContext : String) : GenResult :=
  if jsFalsy apiKey then .thrown "OpenAI API key not set."
  else
    .called
      ("You are an expert educational content creator. Given the following course and section, generate a high-quality, one-page comprehensive note for the section. The note should be clear, well-structured, and suitable for deep understanding and revision. Avoid repeating the summary points; instead, expand on them with rich, specific, and educational content. Use engaging language and examples where appropriate.\n\nCourse Title: "
        ++ courseTitle ++ "\nSection Title: " ++ sectionTitle
        ++ "\nSection Summary (bullets):\n" ++ summary
        ++ "\nCourse Context (topics, other sections):\n" ++ courseContext
        ++ "\nReturn only the comprehensive note as a single string, no JSON or markdown formatting.")
      false

/-- Lines 43-47: `generateCourseContent`. Guard on the API key, then
delegation to `callOpenRouterAPI(prompt, true)` (JSON mode). -/
def generateCourseContent (apiKey : Option String)
    (title sourceType source : String) : GenResult :=
  if jsFalsy apiKey then .thrown "OpenAI API key not set."
  else
    .called
      ("You are an expert educational content creator. Create a comprehensive course structure based on the following:\n\nTitle: "
        ++ title ++ "\nSource Type: " ++ sourceType ++ "\nSource: " ++ source
        ++ "\n\nGenerate a detailed course with:\n1. A brief summary (2-3 sentences)\n2. Category (e.g., Programming, Data Science, Business, Design, etc.)\n3. Level (Beginner, Intermediate, or Advanced)\n4. 3-5 key topics covered\n5. 5-8 lessons with:\n   - Title\n   - Description (2-3 sentences)\n   - Duration (e.g., \"15 min\", \"30 min\")\n   - Detailed content (3-4 paragraphs)\n6. 5-10 quiz questions with:\n   - Question text\n   - Type (multiple-choice, true-false, or fill-blank)\n   - For multiple-choice questions: randomly vary the position of the correct answer (sometimes A, sometimes B, C, or D) to avoid predictable patterns\n   - Options (for multiple-choice)\n   - Correct answer\n   - Explanation\n   - Difficulty (easy, medium, or hard)\n7. 8-12 flashcards with:\n   - Front (question or term)\n   - Back (answer or definition)\n   - Difficulty level\n8. 3-5 comprehensive notes with:\n   - Title\n   - Content (detailed explanation)\n   - Related topics\n\nReturn the response as a valid JSON object.")
      true

/-- Lines 49-56: `generateChatResponse`. Guard on the API key, the
enrolled-courses context block, then delegation to
`callOpenRouterAPI(prompt)` (plain-text mode). -/
def generateChatResponse (apiKey : Option String)
    (message : String) (coursesContext : List CourseCtx) : GenResult :=
  if jsFalsy apiKey then .thrown "OpenAI API key not set."
  else
    let contextInfo :=
      if coursesContext.length > 0 then
        "The user is enrolled in these courses:\n"
          ++ String.intercalate "\n"
              (coursesContext.map (fun c =>
                "- " ++ c.title ++ ": " ++ jsOrDefault c.summary "No summary"))
      else "The user has not enrolled in any courses yet."
    .called
      ("You are a concise AI tutor helping a student learn. " ++ contextInfo
        ++ "\n\nStudent\x27s question: " ++ message
        ++ "\n\nIMPORTANT: Provide a SHORT, DIRECT answer (2-4 sentences max).\n- Answer the question directly and concisely\n- No lengthy explanations or extra details unless specifically asked\n- If the question relates to their enrolled courses, mention it briefly\n- Be clear and to the point")
      false

/-- Lines 58-62: `generateAdditionalQuizQuestions`. Guard on the API key,
then delegation to `callOpenRouterAPI(prompt, true)` (JSON mode). -/
def generateAdditionalQuizQuestions (apiKey : Option String)
    (courseTitle courseTopic : String) (existingQuestions : Nat) : GenResult :=
  if jsFalsy apiKey then .thrown "OpenAI API key not set."
  else
    .called
      ("You are an expert educational content creator. Generate " ++ toString existingQuestions
        ++ " new and unique multiple-choice quiz questions for the following course topic. These questions should be different from the existing ones and test deeper understanding.\n\nCourse Title: "
        ++ courseTitle ++ "\nCourse Topic: " ++ courseTopic
        ++ "\n\nFor each question:\n- Provide 4 distinct options (A, B, C, D).\n- IMPORTANT: Randomly vary the position of the correct answer (sometimes A, sometimes B, C, or D) to avoid predictable patterns. Do NOT always put the correct answer in the same position.\n- Specify the correct answer clearly.\n- For each option, provide a detailed explanation of why it is correct or incorrect.\n- Provide a specific explanation for why the correct answer is right, referencing the question and options.\n- Vary the difficulty level (easy, medium, hard).\n\nReturn the response as a valid JSON object.")
      true

/-- A retryable status (429, 500 or 503) makes `isRetryable` true. -/
theorem isRetryable_of_status (e : JsError)
    (h : e.status = some 429 ∨ e.status = some 500 ∨ e.status = some 503) :
    isRetryable e = true := by
  rcases h with h | h | h <;> simp [isRetryable, h]

/-- Shifting the delay sequence by one attempt: the delay of the current
attempt followed by the delays starting at the next attempt. -/
theorem delays_cons_shift (attempt : Int) (hatt : 1 ≤ attempt) (m : Nat) :
    2 ^ (attempt - 1).toNat * 1000 ::
        (List.range m).map (fun i => 2 ^ ((attempt + 1 - 1).toNat + i) * 1000) =
      (List.range (m + 1)).map (fun i => 2 ^ ((attempt - 1).toNat + i) * 1000) := by
  rw [List.range_succ_eq_map, List.map_cons, List.map_map]
  refine congrArg₂ _ ?_ (List.map_congr_left ?_)
  · norm_num
  · intro i _
    have h2 : (attempt + 1 - 1).toNat + i = (attempt - 1).toNat + Nat.succ i := by omega
    show 2 ^ ((attempt + 1 - 1).toNat + i) * 1000 =
      2 ^ ((attempt - 1).toNat + Nat.succ i) * 1000
    rw [h2]

/-- Trace of the retry loop when every invocation fails retryably: with
`fuel` allowed iterations starting at `attempt`, all `fuel` invocations
happen, each non-final one is followed by its exponential delay, and the
error of the final invocation is raised. -/
theorem retryLoop_all_fail {α : Type} (apiCall : Int → Except JsError α) (errs : Int → JsError)
    (hfail : ∀ k, apiCall k = Except.error (errs k))
    (hretry : ∀ k, isRetryable (errs k) = true) :
    ∀ fuel : Nat, fuel ≠ 0 → ∀ attempt : Int, 1 ≤ attempt → ∀ le : Option JsError,
      retryLoop apiCall attempt fuel le =
        { calls := fuel,
          delays := (List.range (fuel - 1)).map (fun i => 2 ^ ((attempt - 1).toNat + i) * 1000),
          outcome := Except.error (some (errs (attempt + fuel - 1))) } := by
  intro fuel
  induction fuel with
  | zero => intro h; exact absurd rfl h
  | succ n ih =>
    intro _ attempt hatt le
    rw [retryLoop, hfail attempt]
    simp only [hretry attempt, if_true]
    rcases Nat.eq_zero_or_pos n with hn | hn
    · subst hn
      simp only [if_pos rfl]
      have harg : attempt + (0 + 1 : Nat) - 1 = attempt := by omega
      simp [harg]
    · rw [if_neg (by omega)]
      rw [ih (by omega) (attempt + 1) (by omega) (some (errs attempt))]
      have harg : attempt + 1 + (n : Int) - 1 = attempt + ((n + 1 : Nat) : Int) - 1 := by
        push_cast; ring
      have hd : n + 1 - 1 = (n - 1) + 1 := by omega
      simp only [RetryTrace.mk.injEq]
      refine ⟨trivial, ?_, ?_⟩
      · rw [hd, ← delays_cons_shift attempt hatt (n - 1)]
      · rw [← harg]

/-- Trace of the retry loop when attempts `attempt .. attempt + j - 1`
fail retryably and attempt `attempt + j` succeeds, all within the fuel
budget: `j + 1` invocations, the `j` delays, and the successful value. -/
theorem retryLoop_success_after {α : Type} (apiCall : Int → Except JsError α) (v : α) :
    ∀ j : Nat, ∀ fuel : Nat, ∀ attempt : Int, ∀ le : Option JsError,
      1 ≤ attempt → j < fuel →
      (∀ i : Nat, i < j → ∃ e, apiCall (attempt + i) = Except.error e ∧ isRetryable e = true) →
      apiCall (attempt + j) = Except.ok v →
      retryLoop apiCall attempt fuel le =
        { calls := j + 1,
          delays := (List.range j).map (fun i => 2 ^ ((attempt - 1).toNat + i) * 1000),
          outcome := Except.ok v } := by
  intro j
  induction j with
  | zero =>
    intro fuel attempt le hatt hfuel hprev hsucc
    obtain ⟨n, rfl⟩ : ∃ n, fuel = n + 1 := ⟨fuel - 1, by omega⟩
    have hs : apiCall attempt = Except.ok v := by simpa using hsucc
    rw [retryLoop, hs]
    rfl
  | succ m ih =>
    intro fuel attempt le hatt hfuel hprev hsucc
    obtain ⟨n, rfl⟩ : ∃ n, fuel = n + 1 := ⟨fuel - 1, by omega⟩
    obtain ⟨e, he, hre⟩ := hprev 0 (Nat.succ_pos m)
    have he0 : apiCall attempt = Except.error e := by simpa using he
    rw [retryLoop, he0]
    simp only [hre, if_true]
    rw [if_neg (by omega)]
    have hprev1 : ∀ i : Nat, i < m →
        ∃ e, apiCall (attempt + 1 + i) = Except.error e ∧ isRetryable e = true := by
      intro i hi
      obtain ⟨e1, he1, hre1⟩ := hprev (i + 1) (by omega)
      refine ⟨e1, ?_, hre1⟩
      have harg : attempt + 1 + (i : Int) = attempt + ((i + 1 : Nat) : Int) := by
        push_cast; ring
      rw [harg]; exact he1
    have hsucc1 : apiCall (attempt + 1 + m) = Except.ok v := by
      have harg : attempt + 1 + (m : Int) = attempt + ((m + 1 : Nat) : Int) := by
        push_cast; ring
      rw [harg]; exact hsucc
    rw [ih n (attempt + 1) (some e) (by omega) (by omega) hprev1 hsucc1]
    simp only [RetryTrace.mk.injEq]
    refine ⟨trivial, ?_, trivial⟩
    rw [← delays_cons_shift attempt hatt m]

/-- C1: an operation failing on every invocation with a retryable status
(429, 500 or 503) is invoked exactly `maxRetries` times by
`retryWithExponentialBackoff`, and the error of the last invocation is
then raised — never a different error and never a silent success. -/
theorem retry_all_retryable_failures_exhausts_budget {α : Type}
    (apiCall : Int → Except JsError α) (errs : Int → JsError) (maxRetries : Int)
    (hm : 1 ≤ maxRetries)
    (hfail : ∀ k, apiCall k = Except.error (errs k))
    (hstatus : ∀ k, (errs k).status = some 429 ∨ (errs k).status = some 500 ∨
        (errs k).status = some 503) :
    (retryWithExponentialBackoff apiCall maxRetries).calls = maxRetries.toNat ∧
    (retryWithExponentialBackoff apiCall maxRetries).outcome =
      Except.error (some (errs maxRetries)) := by
  have hretry : ∀ k, isRetryable (errs k) = true :=
    fun k => isRetryable_of_status (errs k) (hstatus k)
  rw [retryWithExponentialBackoff,
    retryLoop_all_fail apiCall errs hfail hretry maxRetries.toNat (by omega) 1 le_rfl none]
  have harg : 1 + (maxRetries.toNat : Int) - 1 = maxRetries := by omega
  rw [harg]
  exact ⟨rfl, rfl⟩

/-- Concrete run for C1: an operation rejecting with status 503 on every
invocation, budget 3: three invocations, then the 503 error is raised. -/
def err503 : JsError :=
  { status := some 503, message := "OpenRouter API error: 503" }

theorem retry_all_retryable_failures_exhausts_budget_witness :
    (retryWithExponentialBackoff (fun _ => (Except.error err503 : Except JsError Unit)) 3).calls
        = 3 ∧
    (retryWithExponentialBackoff (fun _ => (Except.error err503 : Except JsError Unit)) 3).outcome
        = Except.error (some err503) := by
  have h := retry_all_retryable_failures_exhausts_budget
    (fun _ => (Except.error err503 : Except JsError Unit)) (fun _ => err503) 3
    (by norm_num) (fun _ => rfl) (fun _ => Or.inr (Or.inr rfl))
  exact ⟨h.1, h.2⟩

/-- C2: a first failure carrying no retryable status (no status field, or
a status other than 429/500/503) is raised immediately: one invocation,
no delay. -/
theorem retry_nonretryable_first_failure_immediate {α : Type}
    (apiCall : Int → Except JsError α) (e : JsError) (maxRetries : Int)
    (hm : 1 ≤ maxRetries)
    (h1 : apiCall 1 = Except.error e)
    (h429 : e.status ≠ some 429) (h500 : e.status ≠ some 500) (h503 : e.status ≠ some 503) :
    retryWithExponentialBackoff apiCall maxRetries =
      { calls := 1, delays := [], outcome := Except.error (some e) } := by
  have hnr : isRetryable e = false := by
    simp only [isRetryable, Bool.or_eq_false_iff, beq_eq_false_iff_ne, ne_eq]
    exact ⟨⟨h503, h429⟩, h500⟩
  obtain ⟨n, hn⟩ : ∃ n : Nat, maxRetries.toNat = n + 1 := ⟨maxRetries.toNat - 1, by omega⟩
  rw [retryWithExponentialBackoff, hn, retryLoop, h1]
  simp [hnr]

theorem retry_nonretryable_first_failure_immediate_witness :
    retryWithExponentialBackoff
        (fun _ => (Except.error { status := some 400, message := "OpenRouter API error: 400" }
          : Except JsError Unit)) 3 =
      { calls := 1, delays := [],
        outcome := Except.error
          (some { status := some 400, message := "OpenRouter API error: 400" }) } :=
  retry_nonretryable_first_failure_immediate _ _ 3 (by norm_num) rfl
    (by decide) (by decide) (by decide)

/-- C10: with a non-positive attempt budget the loop body never runs, so
the operation is never invoked and the uninitialised `lastError`
(`undefined`, modelled `none`) is thrown. -/
theorem retry_nonpositive_budget_throws_undefined {α : Type}
    (apiCall : Int → Except JsError α) (maxRetries : Int) (hm : maxRetries ≤ 0) :
    retryWithExponentialBackoff apiCall maxRetries =
      { calls := 0, delays := [], outcome := Except.error none } := by
  have h0 : maxRetries.toNat = 0 := by omega
  rw [retryWithExponentialBackoff, h0, retryLoop]

theorem retry_nonpositive_budget_throws_undefined_witness :
    retryWithExponentialBackoff (fun _ => (Except.ok 7 : Except JsError Nat)) 0 =
      { calls := 0, delays := [], outcome := Except.error none } :=
  retry_nonpositive_budget_throws_undefined _ 0 le_rfl

/-- Counterexample to C3 as stated: with the default budget of 3 and an
operation failing with status 503 on every invocation, the delays
actually performed are 1000ms and 2000ms only — the loop breaks out
before any 4000ms wait, so the claimed delay list 1000/2000/4000 is
wrong. -/
theorem retry_default_budget_delays_counterexample :
    (retryWithExponentialBackoff (fun _ => (Except.error err503 : Except JsError Unit)) 3).delays
        = [1000, 2000] ∧
    (retryWithExponentialBackoff (fun _ => (Except.error err503 : Except JsError Unit)) 3).delays
        ≠ [1000, 2000, 4000] := by
  constructor
  · rfl
  · intro h
    have h2 : ([1000, 2000] : List Nat) = [1000, 2000, 4000] := by
      rw [← h]; rfl
    simp at h2

/-- C3 (amended): attempt `k` failing retryably waits `2^(k-1) * 1000` ms
only when a next attempt exists (`k < maxRetries`); no delay follows the
final attempt, so an operation failing retryably on every attempt of the
default 3-attempt budget incurs delays 1000ms and 2000ms. -/
theorem retry_delay_policy_amended {α : Type}
    (apiCall : Int → Except JsError α) (errs : Int → JsError) (maxRetries : Int)
    (hm : 1 ≤ maxRetries)
    (hfail : ∀ k, apiCall k = Except.error (errs k))
    (hstatus : ∀ k, (errs k).status = some 429 ∨ (errs k).status = some 500 ∨
        (errs k).status = some 503) :
    (retryWithExponentialBackoff apiCall maxRetries).delays.length = maxRetries.toNat - 1 ∧
    (∀ k : Nat, 1 ≤ k → k < maxRetries.toNat →
      (retryWithExponentialBackoff apiCall maxRetries).delays.get? (k - 1) =
        some (2 ^ (k - 1) * 1000)) := by
  have hretry : ∀ k, isRetryable (errs k) = true :=
    fun k => isRetryable_of_status (errs k) (hstatus k)
  rw [retryWithExponentialBackoff,
    retryLoop_all_fail apiCall errs hfail hretry maxRetries.toNat (by omega) 1 le_rfl none]
  constructor
  · simp
  · intro k hk1 hkm
    rw [List.get?_map, List.get?_range (by omega : k - 1 < maxRetries.toNat - 1)]
    have h0 : ((1 : Int) - 1).toNat = 0 := rfl
    simp [h0]

theorem retry_delay_policy_amended_witness :
    (retryWithExponentialBackoff (fun _ => (Except.error err503 : Except JsError Unit)) 3).delays.length
        = 2 ∧
    (retryWithExponentialBackoff (fun _ => (Except.error err503 : Except JsError Unit)) 3).delays.get? 0
        = some 1000 ∧
    (retryWithExponentialBackoff (fun _ => (Except.error err503 : Except JsError Unit)) 3).delays.get? 1
        = some 2000 := by
  have h := retry_delay_policy_amended
    (fun _ => (Except.error err503 : Except JsError Unit)) (fun _ => err503) 3
    (by norm_num) (fun _ => rfl) (fun _ => Or.inr (Or.inr rfl))
  exact ⟨h.1, h.2 1 le_rfl (by norm_num), h.2 2 (by norm_num) (by norm_num)⟩

/-- C4: an operation that succeeds on attempt `k ≤ maxRetries` after
failing retryably on attempts `1 .. k-1` returns that attempt's value
with exactly `k` invocations and the delays `1000, 2000, ...` of the
`k-1` failed attempts. -/
theorem retry_success_at_attempt {α : Type}
    (apiCall : Int → Except JsError α) (v : α) (k maxRetries : Int)
    (hk1 : 1 ≤ k) (hkm : k ≤ maxRetries)
    (hsucc : apiCall k = Except.ok v)
    (hprev : ∀ j : Int, 1 ≤ j → j < k → ∃ e, apiCall j = Except.error e ∧
        (e.status = some 429 ∨ e.status = some 500 ∨ e.status = some 503)) :
    retryWithExponentialBackoff apiCall maxRetries =
      { calls := k.toNat,
        delays := (List.range (k.toNat - 1)).map (fun i => 2 ^ i * 1000),
        outcome := Except.ok v } := by
  have hprevN : ∀ i : Nat, i < k.toNat - 1 →
      ∃ e, apiCall (1 + i) = Except.error e ∧ isRetryable e = true := by
    intro i hi
    obtain ⟨e, he, hst⟩ := hprev (1 + i) (by omega) (by omega)
    exact ⟨e, he, isRetryable_of_status e hst⟩
  have hsuccN : apiCall (1 + ((k.toNat - 1 : Nat) : Int)) = Except.ok v := by
    have harg : 1 + ((k.toNat - 1 : Nat) : Int) = k := by omega
    rw [harg]; exact hsucc
  rw [retryWithExponentialBackoff,
    retryLoop_success_after apiCall v (k.toNat - 1) maxRetries.toNat 1 none le_rfl
      (by omega) hprevN hsuccN]
  have hc : k.toNat - 1 + 1 = k.toNat := by omega
  have h0 : ((1 : Int) - 1).toNat = 0 := rfl
  simp [hc, h0]

/-- Concrete run for C4: a provider responding 503 on the first two
attempts and success on the third; the call succeeds on attempt 3 after
waiting 1000ms then 2000ms. -/
def respOk : ApiResponse :=
  { choices := some [{ message := some { content := some "ok" } }] }

def wire503Twice : RequestBody → Int → HttpResponse := fun _ attempt =>
  if attempt ≤ 2 then { ok := false, status := 503, body := { choices := none } }
  else { ok := true, status := 200, body := respOk }

theorem retry_success_at_attempt_witness :
    retryWithExponentialBackoff (fetchAttempt "openai/gpt-4o" "p" wire503Twice) 3 =
      { calls := 3, delays := [1000, 2000], outcome := Except.ok respOk } := by
  have hs : fetchAttempt "openai/gpt-4o" "p" wire503Twice 3 = Except.ok respOk := rfl
  have hp : ∀ j : Int, 1 ≤ j → j < 3 →
      ∃ e, fetchAttempt "openai/gpt-4o" "p" wire503Twice j = Except.error e ∧
        (e.status = some 429 ∨ e.status = some 500 ∨ e.status = some 503) := by
    intro j h1 h2
    interval_cases j
    · exact ⟨{ status := some 503, message := "OpenRouter API error: " ++ toString (503 : Int) },
        rfl, Or.inr (Or.inr rfl)⟩
    · exact ⟨{ status := some 503, message := "OpenRouter API error: " ++ toString (503 : Int) },
        rfl, Or.inr (Or.inr rfl)⟩
  have h := retry_success_at_attempt (fetchAttempt "openai/gpt-4o" "p" wire503Twice) respOk 3 3
    (by norm_num) le_rfl hs hp
  rw [h]
  rfl

/-- Trace of the retry wrapper when the very first invocation succeeds:
one call, no delay, the value returned. -/
theorem retry_first_attempt_ok {α : Type} (apiCall : Int → Except JsError α) (v : α)
    (maxRetries : Int) (hm : 1 ≤ maxRetries) (h1 : apiCall 1 = Except.ok v) :
    retryWithExponentialBackoff apiCall maxRetries =
      { calls := 1, delays := [], outcome := Except.ok v } := by
  rw [retryWithExponentialBackoff,
    retryLoop_success_after apiCall v 0 maxRetries.toNat 1 none le_rfl (by omega)
      (fun i hi => absurd hi (Nat.not_lt_zero i)) (by simpa using h1)]
  rfl

/-- C5: in JSON mode the content is parsed directly when possible,
otherwise through the labeled fenced block; when both strategies fail the
call fails with a parsing error after a single HTTP exchange — the parse
failure is not retried. Concretely, both the bare object text and its
```json-fenced wrapping parse to the object with field `a = 1`. -/
theorem jsonMode_parse_strategies (text : String) :
    (∀ j, jsonParse text = some j → parseJsonContent text = Except.ok j) ∧
    (∀ inner j, jsonParse text = none → jsonBlockMatch text.data = some inner →
        jsonParse (String.mk inner) = some j → parseJsonContent text = Except.ok j) ∧
    (jsonParse text = none →
      (jsonBlockMatch text.data = none ∨
        ∃ inner, jsonBlockMatch text.data = some inner ∧ jsonParse (String.mk inner) = none) →
      ∃ err, parseJsonContent text = Except.error err) ∧
    (∀ (model prompt : String) (resp : ApiResponse) (err : CallError),
      extractContent resp = text →
      parseJsonContent text = Except.error err →
      callOpenRouterAPI model prompt (fun _ _ => { ok := true, status := 200, body := resp })
          true =
        { calls := 1, delays := [], result := Except.error err }) ∧
    parseJsonContent "\x7b\"a\":1\x7d" = Except.ok (Json.jobj [("a", Json.jnum 1)]) ∧
    parseJsonContent "```json\n\x7b\"a\":1\x7d\n```" =
      Except.ok (Json.jobj [("a", Json.jnum 1)]) := by
  refine ⟨?_, ?_, ?_, ?_, rfl, rfl⟩
  · intro j hj; simp [parseJsonContent, hj]
  · intro inner j hn hb hi; simp [parseJsonContent, hn, hb, hi]
  · intro hn hcase
    rcases hcase with hb | ⟨inner, hb, hi⟩
    · exact ⟨CallError.failedToParse, by simp [parseJsonContent, hn, hb]⟩
    · exact ⟨CallError.syntaxError, by simp [parseJsonContent, hn, hb, hi]⟩
  · intro model prompt resp err hext hp
    have ht := retry_first_attempt_ok
      (fetchAttempt model prompt (fun _ _ => { ok := true, status := 200, body := resp }))
      resp 3 (by norm_num) rfl
    simp only [callOpenRouterAPI]
    rw [ht]
    simp [hext, hp]

theorem jsonMode_parse_strategies_witness :
    ∃ err, parseJsonContent "hello" = Except.error err :=
  (jsonMode_parse_strategies "hello").2.2.1 rfl (Or.inl rfl)

/-- C6: in non-JSON mode the completion client returns the first choice's
message content verbatim, and the empty string when the response has no
choices or the content field is absent. -/
theorem nonJsonMode_verbatim_content :
    (∀ (r : ApiResponse) ch rest m s, r.choices = some (ch :: rest) → ch.message = some m →
        m.content = some s → extractContent r = s) ∧
    (∀ r : ApiResponse, r.choices = none → extractContent r = "") ∧
    (∀ r : ApiResponse, r.choices = some [] → extractContent r = "") ∧
    (∀ (r : ApiResponse) ch rest, r.choices = some (ch :: rest) → ch.message = none →
        extractContent r = "") ∧
    (∀ (r : ApiResponse) ch rest m, r.choices = some (ch :: rest) → ch.message = some m →
        m.content = none → extractContent r = "") ∧
    (∀ (model prompt : String) (resp : ApiResponse),
      callOpenRouterAPI model prompt (fun _ _ => { ok := true, status := 200, body := resp })
          false =
        { calls := 1, delays := [],
          result := Except.ok (CallValue.textVal (extractContent resp)) }) := by
  refine ⟨?_, ?_, ?_, ?_, ?_, ?_⟩
  · intro r ch rest m s h1 h2 h3; simp [extractContent, h1, h2, h3]
  · intro r h1; simp [extractContent, h1]
  · intro r h1; simp [extractContent, h1]
  · intro r ch rest h1 h2; simp [extractContent, h1, h2]
  · intro r ch rest m h1 h2 h3; simp [extractContent, h1, h2, h3]
  · intro model prompt resp
    have ht := retry_first_attempt_ok
      (fetchAttempt model prompt (fun _ _ => { ok := true, status := 200, body := resp }))
      resp 3 (by norm_num) rfl
    simp only [callOpenRouterAPI]
    rw [ht]
    rfl

theorem nonJsonMode_verbatim_content_witness :
    extractContent { choices := some [{ message := some { content := some "hello" } }] }
        = "hello" ∧
    extractContent { choices := none } = "" :=
  ⟨nonJsonMode_verbatim_content.1 _ _ [] _ "hello" rfl rfl rfl,
    nonJsonMode_verbatim_content.2.1 _ rfl⟩

/-- C9: the fenced-block fallback fires only for a block delimited exactly
by lowercase ```json plus a newline and closed by a newline plus three
backticks, taking the first, shortest such block; a matching block whose
inner text is invalid JSON raises the inner parse exception, while the
dedicated failed-to-parse error is raised only when no block matches. -/
theorem fenced_block_fallback_semantics :
    (∀ (text : String) (inner : List Char), jsonParse text = none →
        jsonBlockMatch text.data = some inner → jsonParse (String.mk inner) = none →
        parseJsonContent text = Except.error CallError.syntaxError) ∧
    (∀ text : String, jsonParse text = none → jsonBlockMatch text.data = none →
        parseJsonContent text = Except.error CallError.failedToParse) ∧
    jsonBlockMatch "```JSON\n1\n```".data = none ∧
    jsonBlockMatch "```json\r\n1\n```".data = none ∧
    jsonBlockMatch "x```json\nA\n```y```json\nB\n```".data = some "A".data ∧
    jsonBlockMatch "```json\nX\n```mid\n```".data = some "X".data := by
  refine ⟨?_, ?_, rfl, rfl, rfl, rfl⟩
  · intro text inner hn hb hi; simp [parseJsonContent, hn, hb, hi]
  · intro text hn hb; simp [parseJsonContent, hn, hb]

theorem fenced_block_fallback_semantics_witness :
    parseJsonContent "```json\nnot json\n```" = Except.error CallError.syntaxError ∧
    parseJsonContent "plain text" = Except.error CallError.failedToParse :=
  ⟨fenced_block_fallback_semantics.1 "```json\nnot json\n```" "not json".data rfl rfl rfl,
    fenced_block_fallback_semantics.2.1 "plain text" rfl rfl⟩

/-- C8: the request body holds exactly one user-role message carrying the
prompt; the behaviour of an attempt depends on the wire only at that one
request (every retried attempt sends the identical request); a non-`ok`
HTTP response becomes an error tagged with the response's status code,
and the retry decision reads exactly that status field. -/
theorem request_shape_and_status_tagging (model prompt : String)
    (wire : RequestBody → Int → HttpResponse) :
    (mkRequestBody model prompt).model = model ∧
    (mkRequestBody model prompt).messages = [{ role := "user", content := prompt }] ∧
    (∀ wire2 : RequestBody → Int → HttpResponse,
      (∀ a, wire (mkRequestBody model prompt) a = wire2 (mkRequestBody model prompt) a) →
      ∀ a, fetchAttempt model prompt wire a = fetchAttempt model prompt wire2 a) ∧
    (∀ a, (wire (mkRequestBody model prompt) a).ok = false →
      fetchAttempt model prompt wire a =
        Except.error
          { status := some (wire (mkRequestBody model prompt) a).status,
            message := ("OpenRouter API error: "
              ++ toString (wire (mkRequestBody model prompt) a).status) }) ∧
    (∀ e1 e2 : JsError, e1.status = e2.status → isRetryable e1 = isRetryable e2) := by
  refine ⟨rfl, rfl, ?_, ?_, ?_⟩
  · intro wire2 hw a
    simp only [fetchAttempt]
    rw [hw a]
  · intro a hok; simp [fetchAttempt, hok]
  · intro e1 e2 h; simp [isRetryable, h]

def wireAlways500 : RequestBody → Int → HttpResponse := fun _ _ =>
  { ok := false, status := 500, body := { choices := none } }

theorem request_shape_and_status_tagging_witness :
    (mkRequestBody "openai/gpt-4o" "hi").messages = [{ role := "user", content := "hi" }] ∧
    fetchAttempt "openai/gpt-4o" "hi" wireAlways500 1 =
      Except.error { status := some 500, message := "OpenRouter API error: 500" } := by
  have h := request_shape_and_status_tagging "openai/gpt-4o" "hi" wireAlways500
  exact ⟨h.2.1, h.2.2.2.1 1 rfl⟩

/-- C7: with the API key unset, each of the four generation functions
throws the configuration error before reaching `callOpenRouterAPI`, so no
network request is issued and no retry is attempted. -/
theorem generation_requires_api_key
    (courseTitle sectionTitle summary courseContext title sourceType source message
      courseTopic : String) (ctx : List CourseCtx) (n : Nat) :
    generateComprehensiveNote none courseTitle sectionTitle summary courseContext =
        GenResult.thrown "OpenAI API key not set." ∧
    generateCourseContent none title sourceType source =
        GenResult.thrown "OpenAI API key not set." ∧
    generateChatResponse none message ctx = GenResult.thrown "OpenAI API key not set." ∧
    generateAdditionalQuizQuestions none courseTitle courseTopic n =
        GenResult.thrown "OpenAI API key not set." ∧
    (∀ p e, generateComprehensiveNote none courseTitle sectionTitle summary courseContext ≠
        GenResult.called p e) ∧
    (∀ p e, generateCourseContent none title sourceType source ≠ GenResult.called p e) ∧
    (∀ p e, generateChatResponse none message ctx ≠ GenResult.called p e) ∧
    (∀ p e, generateAdditionalQuizQuestions none courseTitle courseTopic n ≠
        GenResult.called p e) := by
  refine ⟨rfl, rfl, rfl, rfl, ?_, ?_, ?_, ?_⟩ <;>
    · intro p e h
      simp [generateComprehensiveNote, generateCourseContent, generateChatResponse,
        generateAdditionalQuizQuestions, jsFalsy] at h

theorem generation_requires_api_key_witness :
    generateCourseContent none "T" "text source" "S" =
      GenResult.thrown "OpenAI API key not set." :=
  (generation_requires_api_key "a" "b" "c" "d" "T" "text source" "S" "m" "t" [] 5).2.1

end OpenRouterService
